import Mathlib

/-!
# Verification of the Subject Enrichment & Risk-Scoring Pipeline

Shallow embedding of the OSINT enrichment and risk-scoring code of
`c2_server.py` (classes `OSINTCollector` and `ContactEnrichment`, plus the
module-level `calculate_overall_risk_score`), together with proofs and
refutations of the specification's claims about it.

Conventions of the embedding:
* Python `float` arithmetic is modelled by exact rationals (`ℚ`).
* Python dictionaries holding optional string attributes are modelled by
  structures with `Option String` fields; `dict.get(k, '')` becomes
  `(·.getD "")`.
* Python's `round(x, 2)` (round-half-to-even at two decimal places) is
  modelled exactly by `roundHalfEven` below.
* Database rows are modelled as values appended to an explicit list standing
  for the table; a `try/except` wrapper that can only fire on dynamic-typing
  or I/O errors is dropped, since the typed embedding cannot raise.
-/

namespace C2Server

/-! ## `calculate_overall_risk_score` (module level, c2_server.py lines 1737–1792)

Input rows come from the `email_enrichment` and `phone_enrichment` tables;
the fields read by the function are `disposable_email`, `breach_count`,
`deliverable` for an email row and `is_valid`, `risk_score` for a phone row.
-/

/-- One row of the `email_enrichment` table, restricted to the columns that
`calculate_overall_risk_score` reads. -/
structure EmailEnrichmentRow where
  disposable_email : Bool
  breach_count : Nat
  deliverable : Bool
deriving DecidableEq, Repr

/-- One row of the `phone_enrichment` table, restricted to the columns that
`calculate_overall_risk_score` reads. -/
structure PhoneEnrichmentRow where
  is_valid : Bool
  risk_score : ℚ
deriving DecidableEq, Repr

/-- Result of `calculate_overall_risk_score`: the `overall_score`,
`risk_level`, `risk_factors` and `factor_count` entries of the returned
dictionary.  `risk_factors` is kept in append order (Python passes it through
`list(set(...))`, whose order is unspecified; no claim depends on the order,
and `factor_count = len(set(factors))` is modelled via `List.dedup`). -/
structure OverallRisk where
  overall_score : ℚ
  risk_level : String
  risk_factors : List String
  factor_count : Nat
deriving DecidableEq, Repr

/-- Python's `round` to an integer: round half to even (banker's rounding),
applied here to an exact rational. -/
def roundHalfEven (q : ℚ) : ℤ :=
  if q - ⌊q⌋ < 1/2 then ⌊q⌋
  else if (1 : ℚ)/2 < q - ⌊q⌋ then ⌊q⌋ + 1
  else if Even ⌊q⌋ then ⌊q⌋ else ⌊q⌋ + 1

/-- Python's `round(x, 2)`. -/
def roundTo2 (q : ℚ) : ℚ := (roundHalfEven (q * 100) : ℚ) / 100

/-- Per-email-row score contribution accumulated by the first loop of
`calculate_overall_risk_score`:
`+0.3` if `disposable_email`, `+0.2` if `breach_count > 0`,
`+0.1` if not `deliverable`. -/
def emailRowScore (r : EmailEnrichmentRow) : ℚ :=
  (if r.disposable_email then 3/10 else 0)
  + (if 0 < r.breach_count then 2/10 else 0)
  + (if r.deliverable then 0 else 1/10)

/-- Factor tags appended by the first loop for one email row. -/
def emailRowFactors (r : EmailEnrichmentRow) : List String :=
  (if r.disposable_email then ["disposable_email"] else [])
  ++ (if 0 < r.breach_count then ["data_breaches"] else [])
  ++ (if r.deliverable then [] else ["undeliverable_email"])

/-- Per-phone-row score contribution accumulated by the second loop:
`+0.2` if not `is_valid`, `+ risk_score * 0.3` if `risk_score > 0.5`. -/
def phoneRowScore (r : PhoneEnrichmentRow) : ℚ :=
  (if r.is_valid then 0 else 2/10)
  + (if 1/2 < r.risk_score then r.risk_score * (3/10) else 0)

/-- Factor tags appended by the second loop for one phone row. -/
def phoneRowFactors (r : PhoneEnrichmentRow) : List String :=
  (if r.is_valid then [] else ["invalid_phone"])
  ++ (if 1/2 < r.risk_score then ["high_risk_phone"] else [])

/-- `calculate_overall_risk_score(email_data, phone_data)`
(c2_server.py lines 1737–1792): sums the per-row contributions, clamps the
total at `1.0` with `min`, rounds to two decimals, and bands the result into
`low` (< 0.3), `medium` (< 0.7) or `high`. -/
def calculate_overall_risk_score (email_data : List EmailEnrichmentRow)
    (phone_data : List PhoneEnrichmentRow) : OverallRisk :=
  let total_score : ℚ :=
    (email_data.map emailRowScore).sum + (phone_data.map phoneRowScore).sum
  let factors : List String :=
    (email_data.map emailRowFactors).flatten
      ++ (phone_data.map phoneRowFactors).flatten
  let final_score : ℚ := min 1 total_score
  let risk_level : String :=
    if final_score < 3/10 then "low"
    else if final_score < 7/10 then "medium"
    else "high"
  { overall_score := roundTo2 final_score
    risk_level := risk_level
    risk_factors := factors.dedup
    factor_count := factors.dedup.length }

/-! ## `ContactEnrichment.email_security_analysis` (lines 994–1066)

The local part of the email is analysed for "suspicious" shape.  The source
computes a floating-point Shannon entropy `calculate_string_entropy` and
compares it against `4.0` once; since `−∑ pᵢ·log₂ pᵢ` with `pᵢ = cᵢ/n` is
irrational in general, the embedding represents that single comparison by the
equivalent integer inequality `n^n > 2^(4n) · ∏ cᵢ^cᵢ` (multiply the entropy
by `n` and exponentiate base 2; `log₂` is strictly monotone).  The empty
string has entropy `0` in the source, and the inequality is likewise false
for `n = 0`. -/

/-- The local part of an email address: `email.split('@')[0]`, i.e. the
characters before the first `@` (the whole string when there is no `@`). -/
def localPart (email : String) : String :=
  String.mk (email.data.takeWhile (· ≠ '@'))

/-- Python's `str.lower()`, character by character.  (Extensionally the same
as `String.toLower`, but expressed over the character list so that concrete
inputs evaluate inside the kernel.) -/
def strToLower (s : String) : String :=
  String.mk (s.data.map Char.toLower)

/-- `calculate_string_entropy(text) > 4.0` expressed exactly:
`−∑ (cᵢ/n)·log₂(cᵢ/n) > 4  ↔  n^n > 2^(4n) · ∏ cᵢ^cᵢ`,
where `cᵢ` are the multiplicities of the distinct characters of `text` and
`n` its length. -/
def entropyAbove4 (text : List Char) : Bool :=
  let n := text.length
  let prodCounts := (text.dedup.map (fun c => (text.count c) ^ (text.count c))).prod
  decide (2 ^ (4 * n) * prodCounts < n ^ n)

/-- The word list of `count_dictionary_words` (lines 1058–1066). -/
def common_words : List String :=
  ["admin", "user", "test", "john", "jane", "smith", "email",
   "info", "contact", "support", "mail", "web", "site"]

/-- `count_dictionary_words(text)`: how many of the common words occur as a
substring of the lower-cased text. -/
def count_dictionary_words (text : String) : Nat :=
  (common_words.filter (fun w => decide (w.data <:+: (strToLower text).data))).length

/-- Maximal runs of digits in a character list: `re.findall(r'\d+', s)`. -/
def digitRuns : List Char → List String
  | [] => []
  | c :: cs =>
    if c.isDigit then
      (c :: cs.takeWhile Char.isDigit).asString :: digitRuns (cs.dropWhile Char.isDigit)
    else
      digitRuns cs
termination_by l => l.length
decreasing_by
  · simp only [List.length_cons]
    exact Nat.lt_succ_of_le (List.dropWhile_sublist _).length_le
  · simp

/-- The string the source tests for with `'\.{2,}' in username` — the Python
literal is the six characters backslash, dot, brace, `2`, comma, brace
(`\.` is not a recognized escape, so the backslash is kept).  The intended
regex search for two consecutive dots is instead a literal substring test. -/
def multipleDotsLiteral : String := "\\.\x7b2,\x7d"

/-- Result dictionary of `email_security_analysis`.  The float field
`entropy_score` is represented by the Boolean `entropy_above_4`, the only
use the code makes of it (the comparison against `4.0` in the
`random_chars` check). -/
structure EmailSecurity where
  has_plus_addressing : Bool
  suspicious_patterns : List String
  entropy_above_4 : Bool
  dictionary_words : Nat
  number_patterns : List String
  special_chars : Nat
deriving DecidableEq, Repr

/-- `ContactEnrichment.email_security_analysis(email)` (lines 994–1038). -/
def email_security_analysis (email : String) : EmailSecurity :=
  let username := localPart email
  let entGt4 := entropyAbove4 username.data
  let dictWords := count_dictionary_words username
  let checks : List (String × Bool) :=
    [("multiple_dots", decide (multipleDotsLiteral.data <:+: username.data)),
     ("all_numbers", decide (username.data ≠ []) && username.data.all Char.isDigit),
     ("very_long", decide (30 < username.length)),
     ("very_short", decide (username.length < 3)),
     ("random_chars", entGt4 && decide (dictWords = 0))]
  { has_plus_addressing := username.data.contains '+'
    suspicious_patterns := (checks.filter (·.2)).map (·.1)
    entropy_above_4 := entGt4
    dictionary_words := dictWords
    number_patterns := digitRuns username.data
    special_chars := (username.data.filter (fun c => ¬c.isAlphanum)).length }

/-! ## Phone analysis (`ContactEnrichment`, lines 1195–1424)

`deep_phone_analysis` assembles a dictionary from
`validate_phone_comprehensive`, `get_phone_geographic_info` and
`get_phone_carrier_info` (all of which call the external
`phonenumbers.parse`), then runs `assess_phone_risk` on it.  The embedding
models the library outputs abstractly via the structures below and gives the
exact values each function produces on its exception path, i.e. for a phone
string that fails to parse.  The `social_media_links` and
`formatted_versions` entries are computed after the risk assessment and are
never read by the scoring path, so they are not carried. -/

/-- Result of `validate_phone_comprehensive` (lines 1232–1277).  The `error`
and `suggestions` keys exist only on the `NumberParseException` path and are
modelled as options. -/
structure PhoneValidation where
  is_valid : Bool
  is_possible : Bool
  number_type : String
  country_code : String
  national_number : String
  international_format : String
  national_format : String
  error : Option String
  suggestions : Option (List String)
deriving DecidableEq, Repr

/-- Result of `get_phone_geographic_info` (lines 1279–1307). -/
structure GeoInfo where
  country : String
  region : String
  city : String
  time_zones : List String
  coordinates : Option String
deriving DecidableEq, Repr

/-- Result of `get_phone_carrier_info` (lines 1309–1334). -/
structure CarrierInfo where
  carrier_name : String
  network_type : String
  mvno : Bool
  ported : Bool
deriving DecidableEq, Repr

/-- Result of `assess_phone_risk` (lines 1336–1376). -/
structure PhoneRiskAssessment where
  risk_score : ℚ
  risk_factors : List String
  trust_indicators : List String
deriving DecidableEq, Repr

/-- The part of the `deep_phone_analysis` dictionary that exists when
`assess_phone_risk(phone, analysis)` is called on it. -/
structure PhoneAnalysisParts where
  original_number : String
  validation : PhoneValidation
  geographic_info : GeoInfo
  carrier_info : CarrierInfo
deriving DecidableEq, Repr

/-- `ContactEnrichment.suggest_phone_corrections(phone)` (lines 1409–1424). -/
def suggest_phone_corrections (phone : String) : List String :=
  let digits_only := String.mk (phone.data.filter Char.isDigit)
  (if digits_only.length = 10 then
    ["+1" ++ digits_only, "1" ++ digits_only] else [])
  ++ (if digits_only.length = 11 && digits_only.startsWith "1" then
    ["+" ++ digits_only] else [])

/-- `validate_phone_comprehensive(phone)` when `phonenumbers.parse` raises
`NumberParseException` (the `except` branch, lines 1273–1275): every field
keeps its initial default — in particular `is_valid = False` and
`number_type = 'unknown'` — and the error message plus correction
suggestions are attached. -/
def validate_phone_failed (phone errMsg : String) : PhoneValidation :=
  { is_valid := false
    is_possible := false
    number_type := "unknown"
    country_code := ""
    national_number := ""
    international_format := ""
    national_format := ""
    error := some errMsg
    suggestions := some (suggest_phone_corrections phone) }

/-- `get_phone_geographic_info(phone)` when parsing fails: the exception is
caught and the initial all-empty dictionary is returned (lines 1305–1307). -/
def geographic_info_failed : GeoInfo :=
  { country := "", region := "", city := "", time_zones := [], coordinates := none }

/-- `get_phone_carrier_info(phone)` when parsing fails: the exception is
caught and the initial dictionary is returned (lines 1332–1334) — note the
`carrier_name` is the empty string, not the `'Unknown'` sentinel that the
success path substitutes for a missing carrier. -/
def carrier_info_failed : CarrierInfo :=
  { carrier_name := "", network_type := "", mvno := false, ported := false }

/-- `ContactEnrichment.assess_phone_risk(phone, analysis)` (lines 1336–1376):
`+0.3` if invalid, `+0.2` if VOIP-typed, `+0.1` if type unknown; one trust
indicator each for mobile type, a carrier name other than `'Unknown'`, and a
non-empty country; the score is reduced by `0.1` per trust indicator, floored
at `0` and capped at `1`.  The `phone` argument is unused, as in the source. -/
def assess_phone_risk (phone : String) (analysis : PhoneAnalysisParts) :
    PhoneRiskAssessment :=
  let _ := phone
  let risk_factors :=
    (if analysis.validation.is_valid then [] else ["invalid_number"])
    ++ (if analysis.validation.number_type = "voip" then ["voip_number"] else [])
    ++ (if analysis.validation.number_type = "unknown" then ["unknown_type"] else [])
  let base_score : ℚ :=
    (if analysis.validation.is_valid then 0 else 3/10)
    + (if analysis.validation.number_type = "voip" then 2/10 else 0)
    + (if analysis.validation.number_type = "unknown" then 1/10 else 0)
  let trust_indicators :=
    (if analysis.validation.number_type = "mobile" then ["mobile_number"] else [])
    ++ (if analysis.carrier_info.carrier_name ≠ "Unknown" then ["known_carrier"] else [])
    ++ (if analysis.geographic_info.country ≠ "" then ["geographic_data"] else [])
  { risk_score :=
      min 1 (max 0 (base_score - trust_indicators.length * (1/10)))
    risk_factors := risk_factors
    trust_indicators := trust_indicators }

/-- The `deep_phone_analysis` dictionary parts for a phone string that fails
to parse: all three sub-lookups hit their exception branches. -/
def phone_analysis_failed (phone errMsg : String) : PhoneAnalysisParts :=
  { original_number := phone
    validation := validate_phone_failed phone errMsg
    geographic_info := geographic_info_failed
    carrier_info := carrier_info_failed }

/-! ## `ContactEnrichment.calculate_risk_score` (lines 1492–1552)

Reads `results['email_data']['validation']['is_disposable']`,
`results['email_data']['security_analysis']['suspicious_patterns']` and
`results['phone_data']['risk_assessment']['risk_score']`; the empty
dictionary that `enrich_contact_info` leaves when an attribute is absent is
modelled by `none`. -/

/-- The part of the `deep_email_analysis` dictionary that
`calculate_risk_score` reads. -/
structure EmailAnalysisParts where
  is_disposable : Bool
  security_analysis : EmailSecurity
deriving DecidableEq, Repr

/-- Input dictionary of `calculate_risk_score`: `email_data` and
`phone_data`, either of which may be the empty dictionary (`none`). -/
structure EnrichmentResults where
  email_data : Option EmailAnalysisParts
  phone_data : Option (PhoneAnalysisParts × PhoneRiskAssessment)
deriving DecidableEq, Repr

/-- Result of `calculate_risk_score`. -/
structure ContactRiskAssessment where
  overall_score : ℚ
  risk_level : String
  factors : List String
  recommendations : List String
deriving DecidableEq, Repr

/-- `ContactEnrichment.calculate_risk_score(results)` (lines 1492–1552):
`+0.3` for a disposable email, `+0.2` for a non-empty
`suspicious_patterns` list, plus `phone risk × 0.5`; clamp at `1.0`; band
into `low` (< 0.3), `medium` (< 0.7), `high`; derive recommendations from
the factor tags. -/
def calculate_risk_score (results : EnrichmentResults) : ContactRiskAssessment :=
  let is_disp := match results.email_data with
    | some e => e.is_disposable
    | none => false
  let has_susp := match results.email_data with
    | some e => !e.security_analysis.suspicious_patterns.isEmpty
    | none => false
  let phone_risk : ℚ := match results.phone_data with
    | some p => p.2.risk_score
    | none => 0
  let score : ℚ :=
    (if is_disp then 3/10 else 0)
    + (if has_susp then 2/10 else 0)
    + phone_risk * (1/2)
  let factors :=
    (if is_disp then ["disposable_email"] else [])
    ++ (if has_susp then ["suspicious_email_patterns"] else [])
    ++ (if 1/2 < phone_risk then ["high_risk_phone"] else [])
  let final_score := min 1 score
  { overall_score := final_score
    risk_level :=
      if final_score < 3/10 then "low"
      else if final_score < 7/10 then "medium"
      else "high"
    factors := factors
    recommendations :=
      (if factors.contains "disposable_email" then
        ["Verify identity through alternative means"] else [])
      ++ (if factors.contains "high_risk_phone" then
        ["Request additional phone verification"] else []) }

/-! ## `OSINTCollector.correlate_accounts` (lines 421–468)

Accounts are Python dictionaries; the keys the correlation reads
(`username`, `display_name`, read with `.get(k, '')` so they may be absent)
are modelled as `Option String`.  Python dictionaries preserve insertion
order, so the groups of `username_groups` / `display_name_groups` appear in
order of first occurrence of their key (`firstKeys`) and each group lists
its members in input order (`List.filter`). -/

/-- A discovered social-media account as assembled by
`scrape_basic_profile` / the `find_social_by_*` helpers.  `username` and
`display_name` may be absent (`account.get(k, '')` in the source);
`confidence` may be absent (`profile.get('confidence', 0.5)` when stored). -/
structure Account where
  platform : String
  username : Option String
  display_name : Option String
  profile_url : String
  confidence : Option ℚ
deriving DecidableEq, Repr

/-- `re.sub(r'[@_.-]', '', username.lower())`: lower-case, then strip the
four separator characters. -/
def normalize_username (u : String) : String :=
  String.mk ((strToLower u).data.filter (fun c => !(c = '@' ∨ c = '_' ∨ c = '.' ∨ c = '-')))

/-- The grouping key of Rule A for one account:
`re.sub(r'[@_.-]', '', account.get('username', '').lower())`. -/
def usernameKeyOf (a : Account) : String :=
  normalize_username (a.username.getD "")

/-- The grouping key of Rule B for one account:
`account.get('display_name', '').lower()`. -/
def displayKeyOf (a : Account) : String :=
  strToLower (a.display_name.getD "")

/-- The keys of a Python dictionary built by repeated
`d.setdefault`-style insertion: first occurrence order, no duplicates. -/
def firstKeys : List String → List String
  | [] => []
  | k :: ks => k :: firstKeys (ks.filter (fun x => x ≠ k))
termination_by l => l.length
decreasing_by
  simp only [List.length_cons]
  exact Nat.lt_succ_of_le (List.length_filter_le _ _)

/-- One correlation dictionary appended by `correlate_accounts`. -/
structure Correlation where
  corr_type : String
  accounts : List Account
  confidence : ℚ
  description : String
deriving DecidableEq, Repr

/-- `OSINTCollector.correlate_accounts(social_accounts)` (lines 421–468):
Rule A groups accounts by normalized username, Rule B by lower-cased display
name of length > 3; every group with more than one member becomes a
correlation (confidence 0.9 / 0.8). -/
def correlate_accounts (social_accounts : List Account) : List Correlation :=
  let ukeys := firstKeys (social_accounts.map usernameKeyOf)
  let usernameClusters := ukeys.filterMap (fun k =>
    let accounts := social_accounts.filter (fun a => usernameKeyOf a = k)
    if 1 < accounts.length then
      some { corr_type := "username_similarity"
             accounts := accounts
             confidence := 9/10
             description := "Multiple accounts with similar username: " ++ k }
    else none)
  let named := social_accounts.filter (fun a => 3 < (displayKeyOf a).length)
  let dkeys := firstKeys (named.map displayKeyOf)
  let displayClusters := dkeys.filterMap (fun k =>
    let accounts := named.filter (fun a => displayKeyOf a = k)
    if 1 < accounts.length then
      some { corr_type := "display_name_match"
             accounts := accounts
             confidence := 8/10
             description := "Accounts with same display name: " ++ k }
    else none)
  usernameClusters ++ displayClusters

/-! ## `OSINTCollector.username_osint` (lines 260–295)

The loop over `platform_urls` performs, per platform, a guarded
`check_username_exists` + `scrape_basic_profile` call inside
`try: ... except: continue`.  The three possible outcomes of one platform
probe are: the call raised (swallowed by the bare `except`), the profile was
absent (`exists` false or `scrape` returned `None`), or a profile was found
and appended. -/

/-- Outcome of one platform probe inside the `username_osint` loop. -/
inductive ProbeOutcome where
  | raised
  | absent
  | found (profile : Account)
deriving DecidableEq, Repr

/-- `OSINTCollector.username_osint(username)` over the (platform, outcome)
sequence of its probe loop: only `found` outcomes contribute; `raised` is
swallowed by `except: continue` and `absent` appends nothing. -/
def username_osint (probes : List (String × ProbeOutcome)) : List Account :=
  probes.filterMap (fun pr =>
    match pr.2 with
    | .found p => some p
    | _ => none)

/-! ## `OSINTCollector.collect_victim_osint` / `store_osint_results` /
`api_start_osint` (lines 117–155, 470–508, 591–624)

The external sub-collectors (`email_osint`, `find_social_by_email`,
`phone_osint`, `find_social_by_phone`, and the per-platform probe results
consumed by `username_osint`) perform network I/O; they are modelled as an
environment of functions, the intelligence payloads they return as opaque
strings.  The database table `osint_data` is an explicit list of rows. -/

/-- Python truthiness of an optional string attribute (`if email:` is false
for both a missing key and an empty string). -/
def strTruthy : Option String → Option String
  | some s => if s.isEmpty then none else some s
  | none => none

/-- The network-facing sub-collectors of `OSINTCollector`, as abstract
functions of their query. -/
structure OsintEnv where
  email_osint_intel : String → String → String
  find_social_by_email : String → List Account
  phone_osint_intel : String → String → String
  find_social_by_phone : String → List Account
  username_probes : String → List (String × ProbeOutcome)

/-- The `results` dictionary assembled by `collect_victim_osint`.
`usernames` is initialised to `[]` and never filled, as in the source. -/
structure OsintResults where
  social_media : List Account
  email_intel : Option String
  phone_intel : Option String
  usernames : List String
  related_accounts : List Correlation
deriving DecidableEq, Repr

/-- `OSINTCollector.collect_victim_osint(victim_id, email, phone, username)`
(lines 117–155): run the applicable sub-collectors, concatenate their
social-media findings in email/phone/username order, correlate. -/
def collect_victim_osint (env : OsintEnv) (victim_id : String)
    (email phone username : Option String) : OsintResults :=
  let emailPart : Option String × List Account :=
    match strTruthy email with
    | some e => (some (env.email_osint_intel victim_id e), env.find_social_by_email e)
    | none => (none, [])
  let phonePart : Option String × List Account :=
    match strTruthy phone with
    | some p => (some (env.phone_osint_intel victim_id p), env.find_social_by_phone p)
    | none => (none, [])
  let usernamePart : List Account :=
    match strTruthy username with
    | some u => username_osint (env.username_probes u)
    | none => []
  let social := emailPart.2 ++ phonePart.2 ++ usernamePart
  { social_media := social
    email_intel := emailPart.1
    phone_intel := phonePart.1
    usernames := []
    related_accounts := correlate_accounts social }

/-- One row inserted into the `osint_data` table by `store_osint_results`;
the JSON blob column carries the full profile / correlation value. -/
inductive OsintRow where
  | social_profile (victim_id : String) (account : Account) (confidence : ℚ)
  | account_correlation (victim_id : String) (corr : Correlation) (confidence : ℚ)
deriving DecidableEq, Repr

/-- `OSINTCollector.store_osint_results(victim_id, results)` (lines
470–508): one `social_profile` row per discovered account (confidence
defaulting to 0.5) and one `account_correlation` row per correlation. -/
def store_osint_results (victim_id : String) (results : OsintResults)
    (db : List OsintRow) : List OsintRow :=
  db
  ++ results.social_media.map
      (fun p => OsintRow.social_profile victim_id p (p.confidence.getD (1/2)))
  ++ results.related_accounts.map
      (fun c => OsintRow.account_correlation victim_id c c.confidence)

/-- Request body of `POST /api/start-osint/<victim_id>`. -/
structure StartOsintRequest where
  email : Option String
  phone : Option String
  username : Option String
deriving DecidableEq, Repr

/-- JSON response of `api_start_osint`. -/
structure StartOsintResponse where
  status : String
  message : String
  victim_id : String
deriving DecidableEq, Repr

/-- One background enrichment pass submitted by `api_start_osint`
(the `executor.submit(run_osint)` call, which will run
`collect_victim_osint` for the given victim and request). -/
structure SubmittedPass where
  victim_id : String
  request : StartOsintRequest
deriving DecidableEq, Repr

/-- `api_start_osint(victim_id)` (lines 591–624): read the optional
attributes from the request body, construct a fresh `OSINTCollector`, submit
`run_osint` to a fresh single-worker executor, and respond `started`.  The
handler consults no existing state — it neither checks nor records whether a
pass for this victim is already in flight — so the submitted pass is simply
appended to the list of in-flight passes. -/
def api_start_osint (victim_id : String) (req : StartOsintRequest)
    (running : List SubmittedPass) :
    StartOsintResponse × List SubmittedPass :=
  ({ status := "started"
     message := "OSINT collection initiated"
     victim_id := victim_id },
   running ++ [{ victim_id := victim_id, request := req }])

/-! ## Helper lemmas -/

lemma floor_le_roundHalfEven (q : ℚ) : ⌊q⌋ ≤ roundHalfEven q := by
  unfold roundHalfEven
  split_ifs <;> omega

lemma roundHalfEven_le_floor_add_one (q : ℚ) : roundHalfEven q ≤ ⌊q⌋ + 1 := by
  unfold roundHalfEven
  split_ifs <;> omega

lemma roundHalfEven_mono {a b : ℚ} (h : a ≤ b) :
    roundHalfEven a ≤ roundHalfEven b := by
  rcases lt_or_eq_of_le (Int.floor_le_floor h) with hf | hf
  · calc roundHalfEven a ≤ ⌊a⌋ + 1 := roundHalfEven_le_floor_add_one a
    _ ≤ ⌊b⌋ := by omega
    _ ≤ roundHalfEven b := floor_le_roundHalfEven b
  · by_cases ha : a - ⌊a⌋ < 1/2
    · have ea : roundHalfEven a = ⌊a⌋ := by
        unfold roundHalfEven
        rw [if_pos ha]
      rw [ea, hf]
      exact floor_le_roundHalfEven b
    · have hfr : (⌊a⌋ : ℚ) = (⌊b⌋ : ℚ) := by exact_mod_cast hf
      have hr : a - ⌊a⌋ ≤ b - ⌊b⌋ := by
        rw [← hfr]
        linarith
      have hb : ¬ b - ⌊b⌋ < 1/2 := by
        intro hb
        apply ha
        linarith
      by_cases ha2 : 1/2 < a - ⌊a⌋
      · have hb2 : 1/2 < b - ⌊b⌋ := lt_of_lt_of_le ha2 hr
        have ea : roundHalfEven a = ⌊a⌋ + 1 := by
          unfold roundHalfEven
          rw [if_neg ha, if_pos ha2]
        have eb : roundHalfEven b = ⌊b⌋ + 1 := by
          unfold roundHalfEven
          rw [if_neg hb, if_pos hb2]
        rw [ea, eb]
        omega
      · by_cases hb2 : 1/2 < b - ⌊b⌋
        · have eb : roundHalfEven b = ⌊b⌋ + 1 := by
            unfold roundHalfEven
            rw [if_neg hb, if_pos hb2]
          rw [eb, ← hf]
          exact roundHalfEven_le_floor_add_one a
        · have ea : roundHalfEven a = if Even ⌊a⌋ then ⌊a⌋ else ⌊a⌋ + 1 := by
            unfold roundHalfEven
            rw [if_neg ha, if_neg ha2]
          have eb : roundHalfEven b = if Even ⌊b⌋ then ⌊b⌋ else ⌊b⌋ + 1 := by
            unfold roundHalfEven
            rw [if_neg hb, if_neg hb2]
          rw [ea, eb, hf]

lemma roundTo2_mono {a b : ℚ} (h : a ≤ b) : roundTo2 a ≤ roundTo2 b := by
  unfold roundTo2
  have : (roundHalfEven (a * 100) : ℚ) ≤ (roundHalfEven (b * 100) : ℚ) := by
    exact_mod_cast roundHalfEven_mono (by linarith)
  exact (div_le_div_iff_of_pos_right (by norm_num)).mpr this

lemma mem_firstKeys {a : String} : ∀ {l : List String}, a ∈ firstKeys l ↔ a ∈ l := by
  intro l
  induction l using firstKeys.induct with
  | case1 => simp [firstKeys]
  | case2 k ks ih =>
    rw [firstKeys]
    simp only [List.mem_cons, ih, List.mem_filter]
    constructor
    · rintro (rfl | ⟨h, _⟩)
      · exact Or.inl rfl
      · exact Or.inr h
    · rintro (rfl | h)
      · exact Or.inl rfl
      · by_cases hk : a = k
        · exact Or.inl hk
        · exact Or.inr ⟨h, by simpa using hk⟩

lemma firstKeys_nodup : ∀ (l : List String), (firstKeys l).Nodup := by
  intro l
  induction l using firstKeys.induct with
  | case1 => simp [firstKeys]
  | case2 k ks ih =>
    rw [firstKeys]
    refine List.nodup_cons.mpr ⟨?_, ih⟩
    rw [mem_firstKeys]
    simp

lemma filtered_labels_ne_nil (l : List (String × Bool)) :
    (l.filter (·.2)).map Prod.fst ≠ [] ↔ ∃ p ∈ l, p.2 = true := by
  rw [ne_eq, List.map_eq_nil_iff, List.filter_eq_nil_iff]
  push_neg
  simp

lemma firstKeys_perm {l l' : List String} (h : l.Perm l') :
    (firstKeys l).Perm (firstKeys l') := by
  rw [List.perm_ext_iff_of_nodup (firstKeys_nodup l) (firstKeys_nodup l')]
  intro a
  rw [mem_firstKeys, mem_firstKeys]
  exact h.mem_iff

/-! ## Claims -/

/-- C1, counterexample: `api_start_osint` has no single-flight guard.  Two
calls in immediate succession for the same victim both answer `started`, the
second does not answer `already_running`, and afterwards two passes for that
victim are in flight. -/
theorem C1_counterexample :
    (api_start_osint "victim-1" ⟨some "a@b.c", none, none⟩
        (api_start_osint "victim-1" ⟨some "a@b.c", none, none⟩ []).2).1.status
        = "started"
    ∧ (api_start_osint "victim-1" ⟨some "a@b.c", none, none⟩
        (api_start_osint "victim-1" ⟨some "a@b.c", none, none⟩ []).2).1.status
        ≠ "already_running"
    ∧ ((api_start_osint "victim-1" ⟨some "a@b.c", none, none⟩
        (api_start_osint "victim-1" ⟨some "a@b.c", none, none⟩ []).2).2.filter
          (fun p => p.victim_id = "victim-1")).length = 2 := by
  decide

/-- C1, amended: `api_start_osint` performs no single-flight check at all:
every call — in particular one made while a pass for the same subject is
already in flight — answers `started` and submits one additional background
pass for that subject. -/
theorem C1_single_flight_absent (victim : String) (req : StartOsintRequest)
    (running : List SubmittedPass) :
    (api_start_osint victim req running).1.status = "started"
    ∧ ((api_start_osint victim req running).2.filter
        (fun p => p.victim_id = victim)).length
      = (running.filter (fun p => p.victim_id = victim)).length + 1 := by
  constructor
  · rfl
  · simp [api_start_osint]

/-- C2, counterexample: one breach record contributes a flat `+0.2` (not
`+0.15`), and a second breach record contributes nothing more: the overall
score of a clean, deliverable email row is `0.2` with one breach and still
`0.2` with two. -/
theorem C2_counterexample :
    (calculate_overall_risk_score [⟨false, 1, true⟩] []).overall_score = 2/10
    ∧ (calculate_overall_risk_score [⟨false, 2, true⟩] []).overall_score = 2/10
    ∧ (2 : ℚ)/10 ≠ 15/100 := by
  refine ⟨?_, ?_, by norm_num⟩ <;>
    norm_num [calculate_overall_risk_score, emailRowScore, phoneRowScore,
      roundTo2, roundHalfEven]

/-- C2, amended: the breach contribution of an email row to the overall risk
score is a flat `+0.2` as soon as the breach count is positive, independent
of the number of breach records and with no separate `0.40` cap: an
otherwise clean, deliverable email row with `n` breaches scores `0.2` for
every `n > 0` and `0` for `n = 0`. -/
theorem C2_flat_breach_contribution (n : ℕ) :
    (calculate_overall_risk_score [⟨false, n, true⟩] []).overall_score
      = if 0 < n then 2/10 else 0 := by
  by_cases h : 0 < n <;>
    simp only [h, if_true, if_false, reduceIte] <;>
    norm_num [calculate_overall_risk_score, emailRowScore, phoneRowScore,
      roundTo2, roundHalfEven, h]

/-- C3, counterexample: a disposable, deliverable email row with 4 breach
records scores `0.5`, not `1.0`, and its level is `medium` — there is no
`critical` override for breach count > 3. -/
theorem C3_counterexample :
    (calculate_overall_risk_score [⟨true, 4, true⟩] []).overall_score = 5/10
    ∧ (calculate_overall_risk_score [⟨true, 4, true⟩] []).overall_score ≠ 1
    ∧ (calculate_overall_risk_score [⟨true, 4, true⟩] []).risk_level = "medium"
    ∧ (calculate_overall_risk_score [⟨true, 4, true⟩] []).risk_level ≠ "critical" := by
  refine ⟨?_, ?_, ?_, ?_⟩ <;>
    norm_num [calculate_overall_risk_score, emailRowScore, phoneRowScore,
      roundTo2, roundHalfEven]
  decide

/-- C3, amended: the scoring function knows only the levels `low`, `medium`
and `high` — no input yields `critical` — and the disposable-email,
4-breach scenario scores `0.5` with level `medium`. -/
theorem C3_no_critical_level :
    (∀ (e : List EmailEnrichmentRow) (p : List PhoneEnrichmentRow),
      (calculate_overall_risk_score e p).risk_level = "low"
      ∨ (calculate_overall_risk_score e p).risk_level = "medium"
      ∨ (calculate_overall_risk_score e p).risk_level = "high")
    ∧ (calculate_overall_risk_score [⟨true, 4, true⟩] []).overall_score = 5/10
    ∧ (calculate_overall_risk_score [⟨true, 4, true⟩] []).risk_level = "medium" := by
  refine ⟨fun e p => ?_, ?_, ?_⟩
  · simp only [calculate_overall_risk_score]
    split_ifs <;> simp
  · norm_num [calculate_overall_risk_score, emailRowScore, phoneRowScore,
      roundTo2, roundHalfEven]
  · norm_num [calculate_overall_risk_score, emailRowScore, phoneRowScore]

/-- C4, counterexample: with email, phone and username all absent the
endpoint does not answer a distinguished `NoQueryableAttributes` outcome —
its response is `started`, byte-identical to the response for a request
that does carry attributes. -/
theorem C4_counterexample :
    (api_start_osint "victim-1" ⟨none, none, none⟩ []).1.status = "started"
    ∧ (api_start_osint "victim-1" ⟨none, none, none⟩ []).1
      = (api_start_osint "victim-1" ⟨some "a@b.c", none, none⟩ []).1 := by
  decide

/-- C4, amended: with email, phone and username all absent the pass still
runs and still answers `started`, but it is a no-op on the store: the
findings are all empty and `store_osint_results` appends no row. -/
theorem C4_no_attributes_no_rows (env : OsintEnv) (victim : String)
    (db : List OsintRow) :
    collect_victim_osint env victim none none none
      = { social_media := [], email_intel := none, phone_intel := none,
          usernames := [], related_accounts := [] }
    ∧ store_osint_results victim
        (collect_victim_osint env victim none none none) db = db
    ∧ ∀ running, (api_start_osint victim ⟨none, none, none⟩ running).1.status
        = "started" := by
  have hcollect : collect_victim_osint env victim none none none
      = { social_media := [], email_intel := none, phone_intel := none,
          usernames := [], related_accounts := [] } := by
    simp [collect_victim_osint, strTruthy, correlate_accounts, firstKeys]
  refine ⟨hcollect, ?_, fun _ => rfl⟩
  rw [hcollect]
  simp [store_osint_results]

/-- C6, counterexample: for a phone string that fails to parse, the phone
risk assessment does carry a trust indicator — the spurious
`known_carrier`, present because the failed lookup leaves the carrier name
`''`, which is not the `'Unknown'` sentinel the check compares against. -/
theorem C6_counterexample :
    (assess_phone_risk "not a phone"
        (phone_analysis_failed "not a phone" "err")).trust_indicators
      = ["known_carrier"]
    ∧ (assess_phone_risk "not a phone"
        (phone_analysis_failed "not a phone" "err")).trust_indicators ≠ [] := by
  constructor <;> simp [assess_phone_risk, phone_analysis_failed,
    validate_phone_failed, geographic_info_failed, carrier_info_failed]

/-- C6, amended: for every phone string that fails to parse, the phone risk
sub-score is `0.3` — reached as `0.3` (invalid) `+ 0.1` (type unknown)
`− 0.1` for the one spurious `known_carrier` trust indicator — with risk
factors `invalid_number` and `unknown_type`, and the phone term contributes
exactly `0.15` to the contact risk score. -/
theorem C6_failed_parse_phone_risk (phone errMsg : String) :
    (assess_phone_risk phone (phone_analysis_failed phone errMsg)).risk_score
      = 3/10
    ∧ (assess_phone_risk phone (phone_analysis_failed phone errMsg)).risk_factors
      = ["invalid_number", "unknown_type"]
    ∧ (assess_phone_risk phone (phone_analysis_failed phone errMsg)).trust_indicators
      = ["known_carrier"]
    ∧ (calculate_risk_score
        { email_data := none,
          phone_data := some (phone_analysis_failed phone errMsg,
            assess_phone_risk phone (phone_analysis_failed phone errMsg)) }).overall_score
      = 15/100 := by
  have hrisk : (assess_phone_risk phone
      (phone_analysis_failed phone errMsg)).risk_score = 3/10 := by
    simp [assess_phone_risk, phone_analysis_failed, validate_phone_failed,
      geographic_info_failed, carrier_info_failed]
    norm_num
  refine ⟨hrisk, ?_, ?_, ?_⟩
  · simp [assess_phone_risk, phone_analysis_failed, validate_phone_failed]
  · simp [assess_phone_risk, phone_analysis_failed, validate_phone_failed,
      geographic_info_failed, carrier_info_failed]
  · simp [calculate_risk_score, hrisk]
    norm_num

/-- C7, counterexample: the local part `a..b` contains two consecutive
separator characters (two dots), yet `email_security_analysis` raises no
suspicious flag at all — the `multiple_dots` check tests for the literal
six-character string `\.\x7b2,\x7d` instead of applying it as a regex. -/
theorem C7_counterexample :
    localPart "a..b@example.com" = "a..b"
    ∧ ['.', '.'] <:+: (localPart "a..b@example.com").data
    ∧ (email_security_analysis "a..b@example.com").suspicious_patterns = [] := by
  decide

/-- C7, amended: the classifier raises a flag exactly when the local part
contains the literal character sequence `\.\x7b2,\x7d` (the regex text for
two-or-more consecutive dots, mistakenly used as a substring test), is all
digits, exceeds 30 characters, is under 3 characters, or has Shannon
entropy above 4 with zero recognized dictionary-word substrings; a
local-part with consecutive separators raises no flag on that account. -/
theorem C7_flag_characterization (email : String) :
    (email_security_analysis email).suspicious_patterns ≠ [] ↔
      (multipleDotsLiteral.data <:+: (localPart email).data
      ∨ ((localPart email).data ≠ [] ∧ (localPart email).data.all Char.isDigit)
      ∨ 30 < (localPart email).length
      ∨ (localPart email).length < 3
      ∨ (entropyAbove4 (localPart email).data
          ∧ count_dictionary_words (localPart email) = 0)) := by
  simp only [email_security_analysis]
  rw [filtered_labels_ne_nil]
  simp only [List.mem_cons, List.not_mem_nil, or_false, exists_eq_or_imp,
    exists_eq_left]
  simp [Bool.and_eq_true, decide_eq_true_iff, and_comm]

/-- C5: for fixed phone rows and fixed remaining email fields, adding one
breach record (incrementing the breach count of one email row) never
decreases the computed overall risk score. -/
theorem C5_score_monotone_in_breaches (pre post : List EmailEnrichmentRow)
    (r : EmailEnrichmentRow) (phones : List PhoneEnrichmentRow) :
    (calculate_overall_risk_score (pre ++ r :: post) phones).overall_score ≤
      (calculate_overall_risk_score
        (pre ++ { r with breach_count := r.breach_count + 1 } :: post)
        phones).overall_score := by
  have hrow : emailRowScore r ≤
      emailRowScore { r with breach_count := r.breach_count + 1 } := by
    unfold emailRowScore
    split_ifs <;> linarith
  simp only [calculate_overall_risk_score]
  apply roundTo2_mono
  apply min_le_min (le_refl 1)
  apply add_le_add _ (le_refl _)
  simp only [List.map_append, List.map_cons, List.sum_append, List.sum_cons]
  apply add_le_add (le_refl _)
  exact add_le_add hrow (le_refl _)

/-- C9: an adapter (platform probe) that raises is contained at its call
boundary by the `except: continue` of the probe loop: the findings of
`username_osint`, and the clusters correlated from them, are identical to
those of a run in which the failing adapter is absent from the platform
list entirely. -/
theorem C9_failing_adapter_isolated (pre post : List (String × ProbeOutcome))
    (name : String) :
    username_osint (pre ++ (name, ProbeOutcome.raised) :: post)
      = username_osint (pre ++ post)
    ∧ correlate_accounts (username_osint (pre ++ (name, ProbeOutcome.raised) :: post))
      = correlate_accounts (username_osint (pre ++ post)) := by
  have h : username_osint (pre ++ (name, ProbeOutcome.raised) :: post)
      = username_osint (pre ++ post) := by
    simp [username_osint, List.filterMap_append, List.filterMap_cons]
  exact ⟨h, by rw [h]⟩

/-- C10: whenever at least two accounts of the input have a missing or empty
username, `correlate_accounts` produces a `username_similarity` cluster of
confidence 0.9 that contains every account whose username is missing or
empty — they all normalize to the empty-string key. -/
theorem C10_empty_usernames_cluster (accs : List Account)
    (h : 2 ≤ (accs.filter (fun a => a.username.getD "" = "")).length) :
    ∃ c ∈ correlate_accounts accs,
      c.corr_type = "username_similarity"
      ∧ c.confidence = 9/10
      ∧ ∀ a ∈ accs, a.username.getD "" = "" → a ∈ c.accounts := by
  have hkey : ∀ a : Account, a.username.getD "" = "" → usernameKeyOf a = "" := by
    intro a ha
    unfold usernameKeyOf
    rw [ha]
    decide
  have hsub : (accs.filter (fun a => a.username.getD "" = "")).length
      ≤ (accs.filter (fun a => usernameKeyOf a = "")).length := by
    apply List.Sublist.length_le
    apply List.monotone_filter_right
    intro a ha
    simp only [decide_eq_true_eq] at ha ⊢
    exact hkey a ha
  have hlen : 1 < (accs.filter (fun a => usernameKeyOf a = "")).length := by
    omega
  have hmem0 : ∃ a ∈ accs, usernameKeyOf a = "" := by
    rcases List.exists_mem_of_length_pos (by omega :
        0 < (accs.filter (fun a => usernameKeyOf a = "")).length) with ⟨a, ha⟩
    rw [List.mem_filter] at ha
    exact ⟨a, ha.1, by simpa using ha.2⟩
  have hkeys : "" ∈ firstKeys (accs.map usernameKeyOf) := by
    rw [mem_firstKeys, List.mem_map]
    rcases hmem0 with ⟨a, hmem, hk⟩
    exact ⟨a, hmem, hk⟩
  refine ⟨{ corr_type := "username_similarity"
            accounts := accs.filter (fun a => usernameKeyOf a = "")
            confidence := 9/10
            description := "Multiple accounts with similar username: " ++ "" },
    ?_, rfl, rfl, ?_⟩
  · unfold correlate_accounts
    apply List.mem_append_left
    rw [List.mem_filterMap]
    refine ⟨"", hkeys, ?_⟩
    simp only [hlen, if_true, reduceIte]
  · intro a hmem ha
    rw [List.mem_filter]
    exact ⟨hmem, by simpa using hkey a ha⟩

/-- C10, witness: two accounts, one with no username key and one with an
empty username, get clustered together. -/
theorem C10_witness :
    2 ≤ (([⟨"Reddit", none, some "Al", "u3", none⟩,
           ⟨"TikTok", some "", some "Bob", "u4", none⟩] :
        List Account).filter (fun a => a.username.getD "" = "")).length
    ∧ ∃ c ∈ correlate_accounts
          [⟨"Reddit", none, some "Al", "u3", none⟩,
           ⟨"TikTok", some "", some "Bob", "u4", none⟩],
        c.corr_type = "username_similarity"
        ∧ c.confidence = 9/10
        ∧ ∀ a ∈ ([⟨"Reddit", none, some "Al", "u3", none⟩,
                  ⟨"TikTok", some "", some "Bob", "u4", none⟩] : List Account),
            a.username.getD "" = "" → a ∈ c.accounts :=
  ⟨by decide,
   C10_empty_usernames_cluster
     [⟨"Reddit", none, some "Al", "u3", none⟩,
      ⟨"TikTok", some "", some "Bob", "u4", none⟩]
     (by decide)⟩

/-- The identity of a cluster as the specification describes it: its rule
tag, its members (as an unordered collection), its confidence and its
description. -/
def clusterData (c : Correlation) : String × Multiset Account × ℚ × String :=
  (c.corr_type, (c.accounts : Multiset Account), c.confidence, c.description)

lemma filterMap_clusters_perm (key : Account → String) (ct : String) (conf : ℚ)
    (desc : String → String) {l l' : List Account} (h : l.Perm l') :
    (((firstKeys (l.map key)).filterMap (fun k =>
        let accounts := l.filter (fun a => key a = k)
        if 1 < accounts.length then
          some { corr_type := ct, accounts := accounts, confidence := conf,
                 description := desc k }
        else none)).map clusterData).Perm
      (((firstKeys (l'.map key)).filterMap (fun k =>
        let accounts := l'.filter (fun a => key a = k)
        if 1 < accounts.length then
          some { corr_type := ct, accounts := accounts, confidence := conf,
                 description := desc k }
        else none)).map clusterData) := by
  rw [List.map_filterMap, List.map_filterMap]
  have heq : (fun k => Option.map clusterData
        (let accounts := l.filter (fun a => key a = k)
         if 1 < accounts.length then
          some { corr_type := ct, accounts := accounts, confidence := conf,
                 description := desc k }
         else none))
      = (fun k => Option.map clusterData
        (let accounts := l'.filter (fun a => key a = k)
         if 1 < accounts.length then
          some { corr_type := ct, accounts := accounts, confidence := conf,
                 description := desc k }
         else none)) := by
    funext k
    have hp : (l.filter (fun a => key a = k)).Perm
        (l'.filter (fun a => key a = k)) := h.filter _
    have hlen : (l.filter (fun a => key a = k)).length
        = (l'.filter (fun a => key a = k)).length := hp.length_eq
    have hms : ((l.filter (fun a => key a = k) : List Account) : Multiset Account)
        = ((l'.filter (fun a => key a = k) : List Account) : Multiset Account) :=
      Multiset.coe_eq_coe.mpr hp
    simp only [hlen]
    by_cases hc : 1 < (l'.filter (fun a => key a = k)).length
    · simp only [hc, if_true, reduceIte, Option.map_some]
      simp [clusterData, hms]
    · simp only [hc, if_false, reduceIte]
  rw [heq]
  exact (firstKeys_perm (h.map key)).filterMap _

/-- C8: the grouping produced by `correlate_accounts` is invariant under
permutation of the input accounts list — the clusters, each taken as its
rule tag, member multiset, confidence and description, are the same up to
order. -/
theorem C8_correlation_perm_invariant (l l' : List Account) (h : l.Perm l') :
    ((correlate_accounts l).map clusterData).Perm
      ((correlate_accounts l').map clusterData) := by
  unfold correlate_accounts
  simp only [List.map_append]
  refine List.Perm.append ?_ ?_
  · exact filterMap_clusters_perm usernameKeyOf "username_similarity" (9/10)
      (fun k => "Multiple accounts with similar username: " ++ k) h
  · exact filterMap_clusters_perm displayKeyOf "display_name_match" (8/10)
      (fun k => "Accounts with same display name: " ++ k)
      (h.filter (fun a => 3 < (displayKeyOf a).length))

/-- C8, witness: a concrete two-account list and its reversal yield the same
clusters. -/
theorem C8_witness :
    ([(⟨"Twitter", some "john_doe", some "John Doe", "u1", none⟩ : Account),
      ⟨"GitHub", some "JohnDoe", some "John Doe", "u2", none⟩].Perm
      [⟨"GitHub", some "JohnDoe", some "John Doe", "u2", none⟩,
       ⟨"Twitter", some "john_doe", some "John Doe", "u1", none⟩])
    ∧ ((correlate_accounts
        [⟨"Twitter", some "john_doe", some "John Doe", "u1", none⟩,
         ⟨"GitHub", some "JohnDoe", some "John Doe", "u2", none⟩]).map clusterData).Perm
      ((correlate_accounts
        [⟨"GitHub", some "JohnDoe", some "John Doe", "u2", none⟩,
         ⟨"Twitter", some "john_doe", some "John Doe", "u1", none⟩]).map clusterData) :=
  ⟨by decide,
   C8_correlation_perm_invariant
     [⟨"Twitter", some "john_doe", some "John Doe", "u1", none⟩,
      ⟨"GitHub", some "JohnDoe", some "John Doe", "u2", none⟩]
     [⟨"GitHub", some "JohnDoe", some "John Doe", "u2", none⟩,
      ⟨"Twitter", some "john_doe", some "John Doe", "u1", none⟩]
     (by decide)⟩

end C2Server
